import Mathlib

/-!
Shallow embedding of the `photonix` optics library.

Sources:
* `src/src/focus.rs` — the accessor traits (`Get`, `Set`, `Modify`,
  `GetOption`, `SetOption`, `ModifyOption`, `ReverseGet`) and the
  depth-2..5 composite traits with their default method bodies;
* `src/src/implementations.rs` — the built-in `Option<T>` instances;
* `src/tests/tests.rs` — the concrete container types
  (`Employee`/`Company`/`Address`/`Street`, `User`, `Json`, `XY`)
  and the hand-written `ReverseGet` instances.

Rust's machine integers `u16`/`u8` are modelled as `Nat`: no arithmetic is
performed on them by any operation modelled here (values are only stored,
compared and moved), so overflow never matters.  `f64`/`f32` payloads are
modelled as `Float`; no floating-point arithmetic occurs in the modelled
operations (payloads are only stored and moved structurally).
`HashMap<String, Json>` is modelled as an association list
`List (String × Json)`; no map operation is ever invoked on it here.

Rust traits become Lean type classes; a composite trait's default method —
the only behaviour a composite has, since declaring participation is an
empty marker `impl` — becomes a Lean function parameterised by the instances
the Rust trait bounds require.
-/

namespace Photonix

/-- `Get` from focus.rs: returns the target field of a container by value. -/
class Get (C : Type) (V : Type) where
  get : C → V

/-- `Set` from focus.rs: replaces the target field with the provided value,
returning the updated container. -/
class Set (C : Type) (V : Type) where
  set : C → V → C

/-- `Modify` from focus.rs: rebuilds the container with the provided function
applied to the target field. -/
class Modify (C : Type) (V : Type) where
  modify : C → (V → V) → C

/-- `GetOption` from focus.rs: returns the payload of the matching enum
variant, or `None` when the active variant differs. -/
class GetOption (C : Type) (V : Type) where
  get_option : C → Option V

/-- `SetOption` from focus.rs: replaces the payload when the active variant
matches, returning the rebuilt container in `Some`; returns `None` otherwise.
(The Rust method is `set_option`; that spelling is a reserved word in Lean,
hence `setOption`.) -/
class SetOption (C : Type) (V : Type) where
  setOption : C → V → Option C

/-- `ModifyOption` from focus.rs: applies the function to the payload when
the active variant matches, returning the rebuilt container in `Some`;
returns `None` otherwise. -/
class ModifyOption (C : Type) (V : Type) where
  modify_option : C → (V → V) → Option C

/-- `ReverseGet` from focus.rs: constructs the enum variant associated with
the value's type. -/
class ReverseGet (C : Type) (V : Type) where
  reverse_get : V → C

/-! ## The composite accessors (focus.rs, module `composites`)

Each Rust composite trait consists solely of a default method whose body is
fixed by the trait; an `impl` of the trait is an empty marker.  Each default
body is therefore embedded as a function over the constituent instances,
with the level types explicit, mirroring the Rust trait's type parameters. -/

/-- `GetSecond::get_second`: body `self.get().get()`. -/
def get_second (C L1 L2 : Type) [Get C L1] [Get L1 L2] (c : C) : L2 :=
  Get.get (Get.get c : L1)

/-- `GetThird::get_third`: body `self.get().get().get()`. -/
def get_third (C L1 L2 L3 : Type) [Get C L1] [Get L1 L2] [Get L2 L3]
    (c : C) : L3 :=
  Get.get (Get.get (Get.get c : L1) : L2)

/-- `GetFourth::get_fourth`: body `self.get().get().get().get()`. -/
def get_fourth (C L1 L2 L3 L4 : Type)
    [Get C L1] [Get L1 L2] [Get L2 L3] [Get L3 L4] (c : C) : L4 :=
  Get.get (Get.get (Get.get (Get.get c : L1) : L2) : L3)

/-- `GetFifth::get_fifth`: body `self.get().get().get().get().get()`. -/
def get_fifth (C L1 L2 L3 L4 L5 : Type)
    [Get C L1] [Get L1 L2] [Get L2 L3] [Get L3 L4] [Get L4 L5] (c : C) : L5 :=
  Get.get (Get.get (Get.get (Get.get (Get.get c : L1) : L2) : L3) : L4)

/-- `SetSecond::set_second`: body `self.modify(|l1| l1.set(new_value))`. -/
def set_second (C L1 L2 : Type) [Modify C L1] [Set L1 L2]
    (c : C) (new_value : L2) : C :=
  Modify.modify c (fun (l1 : L1) => Set.set l1 new_value)

/-- `SetThird::set_third`: body
`self.modify(|l1| l1.modify(|l2| l2.set(new_value)))`. -/
def set_third (C L1 L2 L3 : Type) [Modify C L1] [Modify L1 L2] [Set L2 L3]
    (c : C) (new_value : L3) : C :=
  Modify.modify c (fun (l1 : L1) =>
    Modify.modify l1 (fun (l2 : L2) => Set.set l2 new_value))

/-- `SetFourth::set_fourth`: body
`self.modify(|l1| l1.modify(|l2| l2.modify(|l3| l3.set(new_value))))`. -/
def set_fourth (C L1 L2 L3 L4 : Type)
    [Modify C L1] [Modify L1 L2] [Modify L2 L3] [Set L3 L4]
    (c : C) (new_value : L4) : C :=
  Modify.modify c (fun (l1 : L1) =>
    Modify.modify l1 (fun (l2 : L2) =>
      Modify.modify l2 (fun (l3 : L3) => Set.set l3 new_value)))

/-- `SetFifth::set_fifth`: body
`self.modify(|l1| l1.modify(|l2| l2.modify(|l3| l3.modify(|l4| l4.set(new_value)))))`. -/
def set_fifth (C L1 L2 L3 L4 L5 : Type)
    [Modify C L1] [Modify L1 L2] [Modify L2 L3] [Modify L3 L4] [Set L4 L5]
    (c : C) (new_value : L5) : C :=
  Modify.modify c (fun (l1 : L1) =>
    Modify.modify l1 (fun (l2 : L2) =>
      Modify.modify l2 (fun (l3 : L3) =>
        Modify.modify l3 (fun (l4 : L4) => Set.set l4 new_value))))

/-- `ModifySecond::modify_second`: body `self.modify(|l1| l1.modify(f))`. -/
def modify_second (C L1 L2 : Type) [Modify C L1] [Modify L1 L2]
    (c : C) (f : L2 → L2) : C :=
  Modify.modify c (fun (l1 : L1) => Modify.modify l1 f)

/-- `ModifyThird::modify_third`: body
`self.modify(|l1| l1.modify(|l2| l2.modify(f)))`. -/
def modify_third (C L1 L2 L3 : Type)
    [Modify C L1] [Modify L1 L2] [Modify L2 L3] (c : C) (f : L3 → L3) : C :=
  Modify.modify c (fun (l1 : L1) =>
    Modify.modify l1 (fun (l2 : L2) => Modify.modify l2 f))

/-- `ModifyFourth::modify_fourth`: body
`self.modify(|l1| l1.modify(|l2| l2.modify(|l3| l3.modify(f))))`. -/
def modify_fourth (C L1 L2 L3 L4 : Type)
    [Modify C L1] [Modify L1 L2] [Modify L2 L3] [Modify L3 L4]
    (c : C) (f : L4 → L4) : C :=
  Modify.modify c (fun (l1 : L1) =>
    Modify.modify l1 (fun (l2 : L2) =>
      Modify.modify l2 (fun (l3 : L3) => Modify.modify l3 f)))

/-- `ModifyFifth::modify_fifth`: body
`self.modify(|l1| l1.modify(|l2| l2.modify(|l3| l3.modify(|l4| l4.modify(f)))))`. -/
def modify_fifth (C L1 L2 L3 L4 L5 : Type)
    [Modify C L1] [Modify L1 L2] [Modify L2 L3] [Modify L3 L4] [Modify L4 L5]
    (c : C) (f : L5 → L5) : C :=
  Modify.modify c (fun (l1 : L1) =>
    Modify.modify l1 (fun (l2 : L2) =>
      Modify.modify l2 (fun (l3 : L3) =>
        Modify.modify l3 (fun (l4 : L4) => Modify.modify l4 f))))

/-! ## Built-in `Option<T>` instances (implementations.rs) -/

/-- `impl<T> Set<T> for Option<T>`: body `self.map(|_| new_value)`. -/
instance (T : Type) : Set (Option T) T where
  set o new_value := o.map (fun _ => new_value)

/-- `impl<T> Modify<T> for Option<T>`: body `self.map(f)`. -/
instance (T : Type) : Modify (Option T) T where
  modify o f := o.map f

/-! ## Concrete containers (tests.rs)

`Street.number` is a Rust `u16`, modelled as `Nat` (only stored and
compared, never computed with, in anything modelled here). -/

/-- `struct Street { number: u16, name: String }` (tests.rs). -/
structure Street where
  number : Nat
  name : String
deriving DecidableEq

/-- `struct Address { city: String, street: Street }` (tests.rs). -/
structure Address where
  city : String
  street : Street
deriving DecidableEq

/-- `struct Company { name: String, address: Address }` (tests.rs). -/
structure Company where
  name : String
  address : Address
deriving DecidableEq

/-- `struct Employee { name: String, company: Company }` (tests.rs). -/
structure Employee where
  name : String
  company : Company
deriving DecidableEq

/-- `enum User { Admin, Employee(Employee) }` (tests.rs). -/
inductive User where
  | Admin : User
  | Employee : Employee → User
deriving DecidableEq

/-- `enum Json { JNull, JStr(String), JNum(f64), JObj(HashMap<String, Json>) }`
(tests.rs).  `f64` is modelled as `Float` and `HashMap<String, Json>` as an
association list; neither is ever computed with in the modelled operations. -/
inductive Json where
  | JNull : Json
  | JStr : String → Json
  | JNum : Float → Json
  | JObj : List (String × Json) → Json

/-- `enum XY { X(u8), Y(f32) }` (tests.rs); `u8` modelled as `Nat`,
`f32` as `Float`. -/
inductive XY where
  | X : Nat → XY
  | Y : Float → XY

/-! ## Generated accessor instances

Modelled from the spec: the generation collaborator (`photonix_derive`, not
under `src/`) emits, for each field of a struct, a `Get`/`GetRef`/`Set`/
`Modify` implementation keyed by the field's value type; for each enum
variant carrying a payload it emits `GetOption`/`Set`/`Modify`/`SetOption`/
`ModifyOption` implementations in which a non-matching active variant yields
the original container (for the total `Set`/`Modify`) or `None` (for the
option-returning families) — per spec §4.1, §4.2, §6 and the worked examples
in focus.rs. -/

instance : Get Street Nat where
  get s := s.number

instance : Get Street String where
  get s := s.name

instance : Set Street Nat where
  set s v := { s with number := v }

instance : Set Street String where
  set s v := { s with name := v }

instance : Modify Street Nat where
  modify s f := { s with number := f s.number }

instance : Modify Street String where
  modify s f := { s with name := f s.name }

instance : Get Address String where
  get a := a.city

instance : Get Address Street where
  get a := a.street

instance : Set Address String where
  set a v := { a with city := v }

instance : Set Address Street where
  set a v := { a with street := v }

instance : Modify Address String where
  modify a f := { a with city := f a.city }

instance : Modify Address Street where
  modify a f := { a with street := f a.street }

instance : Get Company String where
  get c := c.name

instance : Get Company Address where
  get c := c.address

instance : Set Company String where
  set c v := { c with name := v }

instance : Set Company Address where
  set c v := { c with address := v }

instance : Modify Company String where
  modify c f := { c with name := f c.name }

instance : Modify Company Address where
  modify c f := { c with address := f c.address }

instance : Get Employee String where
  get e := e.name

instance : Get Employee Company where
  get e := e.company

instance : Set Employee String where
  set e v := { e with name := v }

instance : Set Employee Company where
  set e v := { e with company := v }

instance : Modify Employee String where
  modify e f := { e with name := f e.name }

instance : Modify Employee Company where
  modify e f := { e with company := f e.company }

instance : GetOption User Employee where
  get_option u := match u with
    | .Employee e => some e
    | .Admin => none

instance : Set User Employee where
  set u v := match u with
    | .Employee _ => .Employee v
    | .Admin => .Admin

instance : Modify User Employee where
  modify u f := match u with
    | .Employee e => .Employee (f e)
    | .Admin => .Admin

/-- Hand-written `impl ReverseGet<Employee> for User` (tests.rs, lines 35-39). -/
instance : ReverseGet User Employee where
  reverse_get := User.Employee

instance : GetOption Json String where
  get_option j := match j with
    | .JStr s => some s
    | _ => none

instance : GetOption Json Float where
  get_option j := match j with
    | .JNum x => some x
    | _ => none

instance : GetOption Json (List (String × Json)) where
  get_option j := match j with
    | .JObj m => some m
    | _ => none

instance : Set Json String where
  set j v := match j with
    | .JStr _ => .JStr v
    | other => other

instance : Set Json Float where
  set j v := match j with
    | .JNum _ => .JNum v
    | other => other

instance : Set Json (List (String × Json)) where
  set j v := match j with
    | .JObj _ => .JObj v
    | other => other

instance : Modify Json String where
  modify j f := match j with
    | .JStr s => .JStr (f s)
    | other => other

instance : Modify Json Float where
  modify j f := match j with
    | .JNum x => .JNum (f x)
    | other => other

instance : Modify Json (List (String × Json)) where
  modify j f := match j with
    | .JObj m => .JObj (f m)
    | other => other

instance : SetOption Json String where
  setOption j v := match j with
    | .JStr _ => some (.JStr v)
    | _ => none

instance : SetOption Json Float where
  setOption j v := match j with
    | .JNum _ => some (.JNum v)
    | _ => none

instance : SetOption Json (List (String × Json)) where
  setOption j v := match j with
    | .JObj _ => some (.JObj v)
    | _ => none

instance : ModifyOption Json String where
  modify_option j f := match j with
    | .JStr s => some (.JStr (f s))
    | _ => none

instance : ModifyOption Json Float where
  modify_option j f := match j with
    | .JNum x => some (.JNum (f x))
    | _ => none

instance : ModifyOption Json (List (String × Json)) where
  modify_option j f := match j with
    | .JObj m => some (.JObj (f m))
    | _ => none

/-- Hand-written `impl ReverseGet<String> for Json` (tests.rs, lines 52-56). -/
instance : ReverseGet Json String where
  reverse_get := Json.JStr

instance : GetOption XY Nat where
  get_option xy := match xy with
    | .X n => some n
    | _ => none

instance : GetOption XY Float where
  get_option xy := match xy with
    | .Y y => some y
    | _ => none

/-- Hand-written `impl ReverseGet<u8> for XY` (tests.rs, lines 314-318). -/
instance : ReverseGet XY Nat where
  reverse_get := XY.X

/-- Hand-written `impl ReverseGet<f32> for XY` (tests.rs, lines 320-324). -/
instance : ReverseGet XY Float where
  reverse_get := XY.Y

/-! ## Concrete values (tests.rs, `john()` and friends) -/

/-- `high_street_23()` from tests.rs. -/
def high_street_23 : Street :=
  { number := 23, name := "high street" }

/-- `ln_high_street()` from tests.rs. -/
def ln_high_street : Address :=
  { city := "london", street := high_street_23 }

/-- `awesome_inc()` from tests.rs. -/
def awesome_inc : Company :=
  { name := "awesome inc", address := ln_high_street }

/-- `john()` from tests.rs. -/
def john : Employee :=
  { name := "john", company := awesome_inc }

/-! ## The spec's manually unrolled chains (§4.3, §8)

These definitions follow the spec's words, not the source, and exist only to
be compared with the source-derived composites above: `get_k` is "k nested
single-level `get` calls"; `set_k` is "modify level 1 with (modify level 2
with (... (modify level k-1 with (set level k to v))))", so `set` only at
the innermost level; `modify_k` is the same nesting with the caller's
function at the innermost level. -/

/-- Spec §4.3: depth-2 read, two nested `get` calls. -/
def unrolled_get_second (C L1 L2 : Type) [Get C L1] [Get L1 L2] (c : C) : L2 :=
  Get.get (Get.get c : L1)

/-- Spec §4.3: depth-3 read, three nested `get` calls. -/
def unrolled_get_third (C L1 L2 L3 : Type) [Get C L1] [Get L1 L2] [Get L2 L3]
    (c : C) : L3 :=
  Get.get (Get.get (Get.get c : L1) : L2)

/-- Spec §4.3: depth-4 read, four nested `get` calls. -/
def unrolled_get_fourth (C L1 L2 L3 L4 : Type)
    [Get C L1] [Get L1 L2] [Get L2 L3] [Get L3 L4] (c : C) : L4 :=
  Get.get (Get.get (Get.get (Get.get c : L1) : L2) : L3)

/-- Spec §4.3: depth-5 read, five nested `get` calls. -/
def unrolled_get_fifth (C L1 L2 L3 L4 L5 : Type)
    [Get C L1] [Get L1 L2] [Get L2 L3] [Get L3 L4] [Get L4 L5] (c : C) : L5 :=
  Get.get (Get.get (Get.get (Get.get (Get.get c : L1) : L2) : L3) : L4)

/-- Spec §4.3: depth-2 write, modify level 1 with (set level 2 to v). -/
def unrolled_set_second (C L1 L2 : Type) [Modify C L1] [Set L1 L2]
    (c : C) (v : L2) : C :=
  Modify.modify c (fun (l1 : L1) => Set.set l1 v)

/-- Spec §4.3: depth-3 write, modify level 1 with (modify level 2 with
(set level 3 to v)). -/
def unrolled_set_third (C L1 L2 L3 : Type) [Modify C L1] [Modify L1 L2]
    [Set L2 L3] (c : C) (v : L3) : C :=
  Modify.modify c (fun (l1 : L1) =>
    Modify.modify l1 (fun (l2 : L2) => Set.set l2 v))

/-- Spec §4.3: depth-4 write, modify at levels 1-3, set only at level 4. -/
def unrolled_set_fourth (C L1 L2 L3 L4 : Type)
    [Modify C L1] [Modify L1 L2] [Modify L2 L3] [Set L3 L4]
    (c : C) (v : L4) : C :=
  Modify.modify c (fun (l1 : L1) =>
    Modify.modify l1 (fun (l2 : L2) =>
      Modify.modify l2 (fun (l3 : L3) => Set.set l3 v)))

/-- Spec §4.3: depth-5 write, modify at levels 1-4, set only at level 5. -/
def unrolled_set_fifth (C L1 L2 L3 L4 L5 : Type)
    [Modify C L1] [Modify L1 L2] [Modify L2 L3] [Modify L3 L4] [Set L4 L5]
    (c : C) (v : L5) : C :=
  Modify.modify c (fun (l1 : L1) =>
    Modify.modify l1 (fun (l2 : L2) =>
      Modify.modify l2 (fun (l3 : L3) =>
        Modify.modify l3 (fun (l4 : L4) => Set.set l4 v))))

/-- Spec §4.3: depth-2 modify, modify level 1 with (modify level 2 with f). -/
def unrolled_modify_second (C L1 L2 : Type) [Modify C L1] [Modify L1 L2]
    (c : C) (f : L2 → L2) : C :=
  Modify.modify c (fun (l1 : L1) => Modify.modify l1 f)

/-- Spec §4.3: depth-3 modify, same nesting as depth-3 write with `f`
innermost. -/
def unrolled_modify_third (C L1 L2 L3 : Type)
    [Modify C L1] [Modify L1 L2] [Modify L2 L3] (c : C) (f : L3 → L3) : C :=
  Modify.modify c (fun (l1 : L1) =>
    Modify.modify l1 (fun (l2 : L2) => Modify.modify l2 f))

/-- Spec §4.3: depth-4 modify, same nesting as depth-4 write with `f`
innermost. -/
def unrolled_modify_fourth (C L1 L2 L3 L4 : Type)
    [Modify C L1] [Modify L1 L2] [Modify L2 L3] [Modify L3 L4]
    (c : C) (f : L4 → L4) : C :=
  Modify.modify c (fun (l1 : L1) =>
    Modify.modify l1 (fun (l2 : L2) =>
      Modify.modify l2 (fun (l3 : L3) => Modify.modify l3 f)))

/-- Spec §4.3: depth-5 modify, same nesting as depth-5 write with `f`
innermost. -/
def unrolled_modify_fifth (C L1 L2 L3 L4 L5 : Type)
    [Modify C L1] [Modify L1 L2] [Modify L2 L3] [Modify L3 L4] [Modify L4 L5]
    (c : C) (f : L5 → L5) : C :=
  Modify.modify c (fun (l1 : L1) =>
    Modify.modify l1 (fun (l2 : L2) =>
      Modify.modify l2 (fun (l3 : L3) =>
        Modify.modify l3 (fun (l4 : L4) => Modify.modify l4 f))))

/-! ## Theorems -/

/-- C1: for every depth k in {2,3,4,5} and every container on which the
composite is declared, the composite accessors equal the manually unrolled
single-level chains of §4.3: `get_k` is k nested `get` calls, and
`set_k`/`modify_k` reach every level 1..k-1 via `modify` with only the
innermost level set (respectively modified) — no outer level is ever
reached via `set`. -/
theorem composite_accessors_unroll :
    (∀ (C L1 L2 : Type) [Get C L1] [Get L1 L2] (c : C),
      get_second C L1 L2 c = unrolled_get_second C L1 L2 c)
  ∧ (∀ (C L1 L2 L3 : Type) [Get C L1] [Get L1 L2] [Get L2 L3] (c : C),
      get_third C L1 L2 L3 c = unrolled_get_third C L1 L2 L3 c)
  ∧ (∀ (C L1 L2 L3 L4 : Type) [Get C L1] [Get L1 L2] [Get L2 L3] [Get L3 L4]
      (c : C), get_fourth C L1 L2 L3 L4 c = unrolled_get_fourth C L1 L2 L3 L4 c)
  ∧ (∀ (C L1 L2 L3 L4 L5 : Type) [Get C L1] [Get L1 L2] [Get L2 L3]
      [Get L3 L4] [Get L4 L5] (c : C),
      get_fifth C L1 L2 L3 L4 L5 c = unrolled_get_fifth C L1 L2 L3 L4 L5 c)
  ∧ (∀ (C L1 L2 : Type) [Modify C L1] [Set L1 L2] (c : C) (v : L2),
      set_second C L1 L2 c v = unrolled_set_second C L1 L2 c v)
  ∧ (∀ (C L1 L2 L3 : Type) [Modify C L1] [Modify L1 L2] [Set L2 L3]
      (c : C) (v : L3),
      set_third C L1 L2 L3 c v = unrolled_set_third C L1 L2 L3 c v)
  ∧ (∀ (C L1 L2 L3 L4 : Type) [Modify C L1] [Modify L1 L2] [Modify L2 L3]
      [Set L3 L4] (c : C) (v : L4),
      set_fourth C L1 L2 L3 L4 c v = unrolled_set_fourth C L1 L2 L3 L4 c v)
  ∧ (∀ (C L1 L2 L3 L4 L5 : Type) [Modify C L1] [Modify L1 L2] [Modify L2 L3]
      [Modify L3 L4] [Set L4 L5] (c : C) (v : L5),
      set_fifth C L1 L2 L3 L4 L5 c v = unrolled_set_fifth C L1 L2 L3 L4 L5 c v)
  ∧ (∀ (C L1 L2 : Type) [Modify C L1] [Modify L1 L2] (c : C) (f : L2 → L2),
      modify_second C L1 L2 c f = unrolled_modify_second C L1 L2 c f)
  ∧ (∀ (C L1 L2 L3 : Type) [Modify C L1] [Modify L1 L2] [Modify L2 L3]
      (c : C) (f : L3 → L3),
      modify_third C L1 L2 L3 c f = unrolled_modify_third C L1 L2 L3 c f)
  ∧ (∀ (C L1 L2 L3 L4 : Type) [Modify C L1] [Modify L1 L2] [Modify L2 L3]
      [Modify L3 L4] (c : C) (f : L4 → L4),
      modify_fourth C L1 L2 L3 L4 c f = unrolled_modify_fourth C L1 L2 L3 L4 c f)
  ∧ (∀ (C L1 L2 L3 L4 L5 : Type) [Modify C L1] [Modify L1 L2] [Modify L2 L3]
      [Modify L3 L4] [Modify L4 L5] (c : C) (f : L5 → L5),
      modify_fifth C L1 L2 L3 L4 L5 c f =
        unrolled_modify_fifth C L1 L2 L3 L4 L5 c f) := by
  refine ⟨?_, ?_, ?_, ?_, ?_, ?_, ?_, ?_, ?_, ?_, ?_, ?_⟩ <;> intros <;> rfl

/-- C2: Get-Set law — for every product-type container `c` of the data model
implementing `Get<V>` and `Set<V>` and every value `v : V`,
`get(set(c, v)) = v`. -/
theorem get_set_law :
    (∀ (c : Street) (v : Nat), (Get.get (Set.set c v) : Nat) = v)
  ∧ (∀ (c : Street) (v : String), (Get.get (Set.set c v) : String) = v)
  ∧ (∀ (c : Address) (v : String), (Get.get (Set.set c v) : String) = v)
  ∧ (∀ (c : Address) (v : Street), (Get.get (Set.set c v) : Street) = v)
  ∧ (∀ (c : Company) (v : String), (Get.get (Set.set c v) : String) = v)
  ∧ (∀ (c : Company) (v : Address), (Get.get (Set.set c v) : Address) = v)
  ∧ (∀ (c : Employee) (v : String), (Get.get (Set.set c v) : String) = v)
  ∧ (∀ (c : Employee) (v : Company), (Get.get (Set.set c v) : Company) = v) := by
  refine ⟨?_, ?_, ?_, ?_, ?_, ?_, ?_, ?_⟩ <;> intros <;> rfl

/-- C3: Modify-equivalence — `set(c, v) = modify(c, |_| v)` for every
container implementing `Set<V>` and `Modify<V>`: in particular the built-in
`Option<T>` instances (where `set` maps over a constant and `modify` maps
over the function), and all struct and enum instances of the data model. -/
theorem modify_equivalence :
    (∀ (T : Type) (o : Option T) (v : T),
      Set.set o v = Modify.modify o (fun _ => v))
  ∧ (∀ (c : Street) (v : Nat), Set.set c v = Modify.modify c (fun _ => v))
  ∧ (∀ (c : Street) (v : String), Set.set c v = Modify.modify c (fun _ => v))
  ∧ (∀ (c : Address) (v : String), Set.set c v = Modify.modify c (fun _ => v))
  ∧ (∀ (c : Address) (v : Street), Set.set c v = Modify.modify c (fun _ => v))
  ∧ (∀ (c : Company) (v : String), Set.set c v = Modify.modify c (fun _ => v))
  ∧ (∀ (c : Company) (v : Address), Set.set c v = Modify.modify c (fun _ => v))
  ∧ (∀ (c : Employee) (v : String), Set.set c v = Modify.modify c (fun _ => v))
  ∧ (∀ (c : Employee) (v : Company), Set.set c v = Modify.modify c (fun _ => v))
  ∧ (∀ (u : User) (v : Employee), Set.set u v = Modify.modify u (fun _ => v))
  ∧ (∀ (j : Json) (v : String), Set.set j v = Modify.modify j (fun _ => v))
  ∧ (∀ (j : Json) (v : Float), Set.set j v = Modify.modify j (fun _ => v))
  ∧ (∀ (j : Json) (v : List (String × Json)),
      Set.set j v = Modify.modify j (fun _ => v)) := by
  refine ⟨?_, ?_, ?_, ?_, ?_, ?_, ?_, ?_, ?_, ?_, ?_, ?_, ?_⟩
  · intro T o v; cases o <;> rfl
  · intros; rfl
  · intros; rfl
  · intros; rfl
  · intros; rfl
  · intros; rfl
  · intros; rfl
  · intros; rfl
  · intros; rfl
  · intro u v; cases u <;> rfl
  · intro j v; cases j <;> rfl
  · intro j v; cases j <;> rfl
  · intro j v; cases j <;> rfl

/-- C10: for the built-in `Option<T>` instances of the total accessor
families, the absent case is a silent no-op — for every value `v`,
`None.set(v) = None` (the new value is discarded), and for every function
`f`, `None.modify(f) = None`, so the result never depends on `f`. -/
theorem option_silent_noop :
    ∀ (T : Type),
      (∀ v : T, Set.set (none : Option T) v = none)
      ∧ (∀ f : T → T, Modify.modify (none : Option T) f = none) :=
  fun _ => ⟨fun _ => rfl, fun _ => rfl⟩

/-- C4: prism round-trip (construct then deconstruct) — for every
variant-container type of the data model implementing `ReverseGet<V>` and
`GetOption<V>` and every value `v : V`,
`get_option(reverse_get(v)) = Some(v)`. -/
theorem prism_construct_deconstruct :
    (∀ e : Employee,
      (GetOption.get_option (ReverseGet.reverse_get e : User)
        : Option Employee) = some e)
  ∧ (∀ s : String,
      (GetOption.get_option (ReverseGet.reverse_get s : Json)
        : Option String) = some s)
  ∧ (∀ n : Nat,
      (GetOption.get_option (ReverseGet.reverse_get n : XY)
        : Option Nat) = some n)
  ∧ (∀ y : Float,
      (GetOption.get_option (ReverseGet.reverse_get y : XY)
        : Option Float) = some y) :=
  ⟨fun _ => rfl, fun _ => rfl, fun _ => rfl, fun _ => rfl⟩

/-- C5: prism round-trip (deconstruct then reconstruct) — for every variant
container `c` of the data model, if `get_option(c) = Some(v)` then
`reverse_get(v) = c`.  (When `get_option(c) = None` nothing at all happens
to the container: every operation of the embedding is a pure function on
values, so the original is trivially left unchanged.) -/
theorem prism_deconstruct_reconstruct :
    (∀ (u : User) (e : Employee),
      GetOption.get_option u = some e → ReverseGet.reverse_get e = u)
  ∧ (∀ (j : Json) (s : String),
      GetOption.get_option j = some s → ReverseGet.reverse_get s = j)
  ∧ (∀ (x : XY) (n : Nat),
      GetOption.get_option x = some n → ReverseGet.reverse_get n = x)
  ∧ (∀ (x : XY) (y : Float),
      GetOption.get_option x = some y → ReverseGet.reverse_get y = x) := by
  refine ⟨?_, ?_, ?_, ?_⟩
  · intro u e h
    cases u with
    | Admin => exact Option.noConfusion h
    | Employee e0 =>
        exact congrArg User.Employee (Option.some.inj h).symm
  · intro j s h
    cases j with
    | JStr s0 => exact congrArg Json.JStr (Option.some.inj h).symm
    | JNull => exact Option.noConfusion h
    | JNum _ => exact Option.noConfusion h
    | JObj _ => exact Option.noConfusion h
  · intro x n h
    cases x with
    | X n0 => exact congrArg XY.X (Option.some.inj h).symm
    | Y _ => exact Option.noConfusion h
  · intro x y h
    cases x with
    | X _ => exact Option.noConfusion h
    | Y y0 => exact congrArg XY.Y (Option.some.inj h).symm

/-- Witness for C5 at concrete inputs: `User::Employee(john)`,
`Json::JStr("hello")`, `XY::X(3)` and `XY::Y(3.0)`. -/
theorem prism_deconstruct_reconstruct_witness :
    (ReverseGet.reverse_get john : User) = User.Employee john
  ∧ (ReverseGet.reverse_get "hello" : Json) = Json.JStr "hello"
  ∧ (ReverseGet.reverse_get (3 : Nat) : XY) = XY.X 3
  ∧ (ReverseGet.reverse_get (3.0 : Float) : XY) = XY.Y 3.0 :=
  ⟨prism_deconstruct_reconstruct.1 (User.Employee john) john rfl,
   prism_deconstruct_reconstruct.2.1 (Json.JStr "hello") "hello" rfl,
   prism_deconstruct_reconstruct.2.2.1 (XY.X 3) 3 rfl,
   prism_deconstruct_reconstruct.2.2.2 (XY.Y 3.0) 3.0 rfl⟩

/-- C6: absence propagation — whenever the active branch of a `Json` value
does not carry a payload of the targeted type, `set_option` and
`modify_option` return `None` for every new value and every function (no
other outcome, no fault; and being pure value functions they alter nothing
of the original). -/
theorem absence_propagation :
    (∀ (j : Json), (∀ x : Float, j ≠ Json.JNum x) →
      ∀ (v : Float) (f : Float → Float),
        SetOption.setOption j v = (none : Option Json)
        ∧ ModifyOption.modify_option j f = (none : Option Json))
  ∧ (∀ (j : Json), (∀ s : String, j ≠ Json.JStr s) →
      ∀ (v : String) (f : String → String),
        SetOption.setOption j v = (none : Option Json)
        ∧ ModifyOption.modify_option j f = (none : Option Json))
  ∧ (∀ (j : Json), (∀ m : List (String × Json), j ≠ Json.JObj m) →
      ∀ (v : List (String × Json))
        (f : List (String × Json) → List (String × Json)),
        SetOption.setOption j v = (none : Option Json)
        ∧ ModifyOption.modify_option j f = (none : Option Json)) := by
  refine ⟨?_, ?_, ?_⟩
  · intro j h v f
    cases j with
    | JNum x => exact absurd rfl (h x)
    | JNull => exact ⟨rfl, rfl⟩
    | JStr _ => exact ⟨rfl, rfl⟩
    | JObj _ => exact ⟨rfl, rfl⟩
  · intro j h v f
    cases j with
    | JStr s => exact absurd rfl (h s)
    | JNull => exact ⟨rfl, rfl⟩
    | JNum _ => exact ⟨rfl, rfl⟩
    | JObj _ => exact ⟨rfl, rfl⟩
  · intro j h v f
    cases j with
    | JObj m => exact absurd rfl (h m)
    | JNull => exact ⟨rfl, rfl⟩
    | JStr _ => exact ⟨rfl, rfl⟩
    | JNum _ => exact ⟨rfl, rfl⟩

/-- Witness for C6 at the concrete mismatching inputs from tests.rs:
`Json::JNull.set_option(0.1) == None` and
`Json::JNull.modify_option(f) == None`, plus the other two target types. -/
theorem absence_propagation_witness :
    (SetOption.setOption Json.JNull (0.1 : Float) = (none : Option Json)
      ∧ ModifyOption.modify_option Json.JNull
          (fun (x : Float) => x) = (none : Option Json))
  ∧ (SetOption.setOption (Json.JNum 0.0) "hello" = (none : Option Json)
      ∧ ModifyOption.modify_option (Json.JNum 0.0)
          (fun (s : String) => s) = (none : Option Json))
  ∧ (SetOption.setOption Json.JNull ([] : List (String × Json))
        = (none : Option Json)
      ∧ ModifyOption.modify_option Json.JNull
          (fun (m : List (String × Json)) => m) = (none : Option Json)) :=
  ⟨absence_propagation.1 Json.JNull
      (fun _ h => Json.noConfusion h) 0.1 (fun x => x),
   absence_propagation.2.1 (Json.JNum 0.0)
      (fun _ h => Json.noConfusion h) "hello" (fun s => s),
   absence_propagation.2.2 Json.JNull
      (fun _ h => Json.noConfusion h) [] (fun m => m)⟩

/-- C7: graceful degradation of the composite write families through the
partial container — for the built-in `Option<LevelOne>` instances of
implementations.rs, at every depth k in {2,3,4,5}: `set_k(None, v) = None`
and `modify_k(None, f) = None` for every `v` and `f` (absence is returned
and the result never depends on the function, which is thus never applied),
while `set_k(Some(x), v)` (resp. `modify_k(Some(x), f)`) is `Some` applied
to the inner composite chain on `x`. -/
theorem option_composite_degradation :
    (∀ (L1 L2 : Type) [Set L1 L2] [Modify L1 L2] (v : L2) (f : L2 → L2),
      set_second (Option L1) L1 L2 none v = none
      ∧ modify_second (Option L1) L1 L2 none f = none
      ∧ ∀ x : L1,
          set_second (Option L1) L1 L2 (some x) v = some (Set.set x v)
          ∧ modify_second (Option L1) L1 L2 (some x) f
              = some (Modify.modify x f))
  ∧ (∀ (L1 L2 L3 : Type) [Modify L1 L2] [Set L2 L3] [Modify L2 L3]
      (v : L3) (f : L3 → L3),
      set_third (Option L1) L1 L2 L3 none v = none
      ∧ modify_third (Option L1) L1 L2 L3 none f = none
      ∧ ∀ x : L1,
          set_third (Option L1) L1 L2 L3 (some x) v
            = some (set_second L1 L2 L3 x v)
          ∧ modify_third (Option L1) L1 L2 L3 (some x) f
              = some (modify_second L1 L2 L3 x f))
  ∧ (∀ (L1 L2 L3 L4 : Type) [Modify L1 L2] [Modify L2 L3] [Set L3 L4]
      [Modify L3 L4] (v : L4) (f : L4 → L4),
      set_fourth (Option L1) L1 L2 L3 L4 none v = none
      ∧ modify_fourth (Option L1) L1 L2 L3 L4 none f = none
      ∧ ∀ x : L1,
          set_fourth (Option L1) L1 L2 L3 L4 (some x) v
            = some (set_third L1 L2 L3 L4 x v)
          ∧ modify_fourth (Option L1) L1 L2 L3 L4 (some x) f
              = some (modify_third L1 L2 L3 L4 x f))
  ∧ (∀ (L1 L2 L3 L4 L5 : Type) [Modify L1 L2] [Modify L2 L3] [Modify L3 L4]
      [Set L4 L5] [Modify L4 L5] (v : L5) (f : L5 → L5),
      set_fifth (Option L1) L1 L2 L3 L4 L5 none v = none
      ∧ modify_fifth (Option L1) L1 L2 L3 L4 L5 none f = none
      ∧ ∀ x : L1,
          set_fifth (Option L1) L1 L2 L3 L4 L5 (some x) v
            = some (set_fourth L1 L2 L3 L4 L5 x v)
          ∧ modify_fifth (Option L1) L1 L2 L3 L4 L5 (some x) f
              = some (modify_fourth L1 L2 L3 L4 L5 x f)) := by
  refine ⟨?_, ?_, ?_, ?_⟩ <;>
    · intros
      exact ⟨rfl, rfl, fun _ => ⟨rfl, rfl⟩⟩

/-- C8: concrete variant scenario — with the depth-5 chain
`User => Employee => Company => Address => Street => u16` declared,
`User::Employee(john).set_fifth(666)` followed by `.get_option()` and
mapping the employee's depth-4 numeric getter yields `Some(666)`, while the
same call sequence starting from `User::Admin.set_fifth(666)` yields
`None`. -/
theorem variant_scenario :
    ((GetOption.get_option
        (set_fifth User Employee Company Address Street Nat
          (User.Employee john) 666) : Option Employee).map
      (fun e => get_fourth Employee Company Address Street Nat e))
      = some 666
  ∧ ((GetOption.get_option
        (set_fifth User Employee Company Address Street Nat
          User.Admin 666) : Option Employee).map
      (fun e => get_fourth Employee Company Address Street Nat e))
      = none :=
  ⟨rfl, rfl⟩

/-- C9: frame condition of `set` — for every product-type container of the
data model and every value `v` of the targeted field's type, `set(c, v)`
has the targeted field equal to `v` and every other field equal to the
corresponding field of `c`. -/
theorem set_frame_condition :
    (∀ (c : Street) (v : Nat),
      (Set.set c v).number = v ∧ (Set.set c v).name = c.name)
  ∧ (∀ (c : Street) (v : String),
      (Set.set c v).name = v ∧ (Set.set c v).number = c.number)
  ∧ (∀ (c : Address) (v : String),
      (Set.set c v).city = v ∧ (Set.set c v).street = c.street)
  ∧ (∀ (c : Address) (v : Street),
      (Set.set c v).street = v ∧ (Set.set c v).city = c.city)
  ∧ (∀ (c : Company) (v : String),
      (Set.set c v).name = v ∧ (Set.set c v).address = c.address)
  ∧ (∀ (c : Company) (v : Address),
      (Set.set c v).address = v ∧ (Set.set c v).name = c.name)
  ∧ (∀ (c : Employee) (v : String),
      (Set.set c v).name = v ∧ (Set.set c v).company = c.company)
  ∧ (∀ (c : Employee) (v : Company),
      (Set.set c v).company = v ∧ (Set.set c v).name = c.name) := by
  refine ⟨?_, ?_, ?_, ?_, ?_, ?_, ?_, ?_⟩ <;>
    · intros
      exact ⟨rfl, rfl⟩

end Photonix
